import Mathlib

/-!
Verification of the Playback/Capture/Scan Orchestrator of the
shoppable-vision repository.

The development shallowly embeds:
* the classification edge function (`supabase/functions/scan-products/index.ts`):
  its defensive parse of the model answer (code-fence stripping, JSON parsing,
  entry filtering, confidence defaulting, search-URL derivation) and its
  HTTP status mapping;
* the video-player page (the `VideoPlayer` component): YouTube-id extraction
  (`extractYoutubeId`), frame capture (`captureFrame`), the scan dispatch and
  response handling (`scanProducts`), the scan-button guard, and the overlay
  position assignment.

JavaScript numbers are modelled as `JNum` (either NaN or an exact rational);
the dynamic JSON values the edge function manipulates are modelled by `Json`.
Effects (toasts, network requests) are made explicit in the state/step
functions; `Math.random()` draws are parameters constrained to `[0, 1)`
scaled as in the source (`Math.random() * 10` becomes a jitter parameter in
`[0, 10)`).
-/

/-- A JavaScript number: NaN or a finite value (modelled exactly as `ℚ`). -/
inductive JNum where
  | nan : JNum
  | fin (q : ℚ) : JNum

/-- A runtime JSON/JS value as handled by the edge function. -/
inductive Json where
  | null : Json
  | bool (b : Bool) : Json
  | num (n : JNum) : Json
  | str (s : String) : Json
  | arr (elems : List Json) : Json
  | obj (fields : List (String × Json)) : Json

/-- JavaScript truthiness of a value (`false`, `0`, `NaN`, `""`, `null` are
falsy; objects and arrays are always truthy). -/
def jsTruthy : Json → Bool
  | Json.null => false
  | Json.bool b => b
  | Json.num JNum.nan => false
  | Json.num (JNum.fin q) => !(q == 0)
  | Json.str s => !(s == "")
  | Json.arr _ => true
  | Json.obj _ => true

/-- Property access `v[key]`: `none` models JavaScript `undefined`.
Later assignments win for duplicate keys, as in a JS object literal. -/
def jsGet (v : Json) (key : String) : Option Json :=
  match v with
  | Json.obj fields => (fields.filter (fun f => f.1 == key)).getLast?.map (fun f => f.2)
  | _ => none

/-- JS string coercion, used by `encodeURIComponent(p.name)`.  Faithful for
strings, numbers, booleans and null; composite values (which the scanned
responses never produce for a `name`) use the `[object Object]` / joined
representation only approximately. -/
def jsToString : Json → String
  | Json.str s => s
  | Json.num JNum.nan => "NaN"
  | Json.num (JNum.fin q) => toString q
  | Json.bool b => cond b ("true") ("false")
  | Json.null => "null"
  | Json.arr _ => ""
  | Json.obj _ => "[object Object]"

/-! ### encodeURIComponent -/

/-- Uppercase hexadecimal digit for `n < 16`. -/
def hexDigit (n : ℕ) : Char :=
  if n < 10 then Char.ofNat (48 + n) else Char.ofNat (55 + n)

/-- `%XX` escape of one byte. -/
def byteHex (b : ℕ) : List Char :=
  ['%', hexDigit (b / 16), hexDigit (b % 16)]

/-- UTF-8 encoding of a Unicode scalar value. -/
def utf8Bytes (n : ℕ) : List ℕ :=
  if n < 128 then [n]
  else if n < 2048 then [192 + n / 64, 128 + n % 64]
  else if n < 65536 then [224 + n / 4096, 128 + (n / 64) % 64, 128 + n % 64]
  else [240 + n / 262144, 128 + (n / 4096) % 64, 128 + (n / 64) % 64, 128 + n % 64]

/-- Characters `encodeURIComponent` leaves unescaped:
`A-Z a-z 0-9 - _ . ! ~ * ' ( )`. -/
def uriUnescaped (c : Char) : Bool :=
  (('a' ≤ c && c ≤ 'z') || ('A' ≤ c && c ≤ 'Z') || ('0' ≤ c && c ≤ '9')
    || c.toNat == 45 || c.toNat == 95 || c.toNat == 46 || c.toNat == 33
    || c.toNat == 126 || c.toNat == 42 || c.toNat == 39 || c.toNat == 40
    || c.toNat == 41)

/-- JavaScript `encodeURIComponent`. -/
def encodeURIComponent (s : String) : String :=
  String.mk (s.data.foldr
    (fun c acc =>
      (if uriUnescaped c then [c]
       else (utf8Bytes c.toNat).foldr (fun b a => byteHex b ++ a) []) ++ acc)
    [])

/-! ### JSON.parse -/

/-- JSON whitespace. -/
def isJsonWs (c : Char) : Bool :=
  c == ' ' || c == '\t' || c == '\n' || c == '\r'

def skipWs : List Char → List Char
  | [] => []
  | c :: cs => if isJsonWs c then skipWs cs else c :: cs

def isDigitCh (c : Char) : Bool := '0' ≤ c && c ≤ '9'

def digitVal (c : Char) : ℕ := c.toNat - 48

def hexVal (c : Char) : Option ℕ :=
  if '0' ≤ c && c ≤ '9' then some (c.toNat - 48)
  else if 'a' ≤ c && c ≤ 'f' then some (c.toNat - 87)
  else if 'A' ≤ c && c ≤ 'F' then some (c.toNat - 55)
  else none

/-- Splits off the longest leading run of decimal digits. -/
def takeDigits : List Char → (List Char × List Char)
  | [] => ([], [])
  | c :: cs =>
    if isDigitCh c then
      let (ds, rest) := takeDigits cs
      (c :: ds, rest)
    else ([], c :: cs)

def digitsNat (ds : List Char) : ℕ :=
  ds.foldl (fun acc c => 10 * acc + digitVal c) 0

/-- JSON string body after the opening quote; produces the decoded
characters and the input after the closing quote.  Raw control characters
are rejected, as by `JSON.parse`. -/
def parseStringRest : List Char → Option (List Char × List Char)
  | [] => none
  | '"' :: rest => some ([], rest)
  | '\\' :: 'u' :: h1 :: h2 :: h3 :: h4 :: rest =>
      match hexVal h1, hexVal h2, hexVal h3, hexVal h4 with
      | some a, some b, some c, some d =>
          (parseStringRest rest).map
            (fun r => (Char.ofNat (4096 * a + 256 * b + 16 * c + d) :: r.1, r.2))
      | _, _, _, _ => none
  | '\\' :: e :: rest =>
      let dec : Option Char :=
        if e == '"' then some '"'
        else if e == '\\' then some '\\'
        else if e == '/' then some '/'
        else if e == 'b' then some (Char.ofNat 8)
        else if e == 'f' then some (Char.ofNat 12)
        else if e == 'n' then some '\n'
        else if e == 'r' then some '\r'
        else if e == 't' then some '\t'
        else none
      match dec with
      | some d => (parseStringRest rest).map (fun r => (d :: r.1, r.2))
      | none => none
  | c :: rest =>
      if c.toNat < 32 then none
      else (parseStringRest rest).map (fun r => (c :: r.1, r.2))

/-- Assembles a parsed JSON number from its pieces: sign, integer digits,
fraction digits and signed decimal exponent.  Built with a single `mkRat`
over integer arithmetic (value `±mantissa · 10^(±exp) / 10^(#frac)`). -/
def ratOfParts (neg : Bool) (intDs fracDs : List Char) (esign : Bool) (ev : ℕ) : ℚ :=
  let mantissa : ℕ := digitsNat (intDs ++ fracDs)
  let f : ℕ := fracDs.length
  let q : ℚ :=
    if esign then mkRat (mantissa : ℤ) (10 ^ (f + ev))
    else mkRat ((mantissa : ℤ) * 10 ^ ev) (10 ^ f)
  if neg then -q else q

/-- JSON number, per the `JSON.parse` grammar
`-? (0 | [1-9][0-9]*) (. [0-9]+)? ([eE][+-]?[0-9]+)?`. -/
def parseNumber (cs : List Char) : Option (ℚ × List Char) :=
  let (neg, cs1) :=
    match cs with
    | '-' :: t => (true, t)
    | _ => (false, cs)
  match cs1 with
  | [] => none
  | c :: t =>
    if !isDigitCh c then none
    else
      let (intDs, rest) :=
        if c == '0' then ([c], t)
        else takeDigits (c :: t)
      let fracStep : Option (List Char × List Char) :=
        match rest with
        | '.' :: t2 =>
            let (ds, rest2) := takeDigits t2
            if ds.isEmpty then none else some (ds, rest2)
        | _ => some ([], rest)
      match fracStep with
      | none => none
      | some (fracDs, rest2) =>
        match rest2 with
        | e :: t3 =>
          if e == 'e' || e == 'E' then
            let (esign, t4) :=
              match t3 with
              | '+' :: t5 => (false, t5)
              | '-' :: t5 => (true, t5)
              | _ => (false, t3)
            let (eds, rest3) := takeDigits t4
            if eds.isEmpty then none
            else some (ratOfParts neg intDs fracDs esign (digitsNat eds), rest3)
          else some (ratOfParts neg intDs fracDs false 0, rest2)
        | [] => some (ratOfParts neg intDs fracDs false 0, [])

mutual

/-- One JSON value (fuel-indexed recursive descent). -/
def parseVal : ℕ → List Char → Option (Json × List Char)
  | 0, _ => none
  | fuel + 1, cs =>
    match skipWs cs with
    | [] => none
    | 'n' :: 'u' :: 'l' :: 'l' :: rest => some (Json.null, rest)
    | 't' :: 'r' :: 'u' :: 'e' :: rest => some (Json.bool true, rest)
    | 'f' :: 'a' :: 'l' :: 's' :: 'e' :: rest => some (Json.bool false, rest)
    | '"' :: rest =>
        (parseStringRest rest).map (fun r => (Json.str (String.mk r.1), r.2))
    | '[' :: rest =>
        (parseElems fuel (skipWs rest)).map (fun r => (Json.arr r.1, r.2))
    | '{' :: rest =>
        (parseMembers fuel (skipWs rest)).map (fun r => (Json.obj r.1, r.2))
    | c :: rest =>
        (parseNumber (c :: rest)).map (fun r => (Json.num (JNum.fin r.1), r.2))

/-- Array elements, positioned after `[` (whitespace skipped). -/
def parseElems : ℕ → List Char → Option (List Json × List Char)
  | 0, _ => none
  | fuel + 1, cs =>
    match cs with
    | ']' :: rest => some ([], rest)
    | _ =>
      match parseVal fuel cs with
      | none => none
      | some (v, rest) =>
        match skipWs rest with
        | ',' :: rest2 =>
            (parseElems fuel (skipWs rest2)).map (fun r => (v :: r.1, r.2))
        | ']' :: rest2 => some ([v], rest2)
        | _ => none

/-- Object members, positioned after `{` (whitespace skipped). -/
def parseMembers : ℕ → List Char → Option (List (String × Json) × List Char)
  | 0, _ => none
  | fuel + 1, cs =>
    match cs with
    | '}' :: rest => some ([], rest)
    | '"' :: rest =>
      match parseStringRest rest with
      | none => none
      | some (key, rest2) =>
        match skipWs rest2 with
        | ':' :: rest3 =>
          match parseVal fuel rest3 with
          | none => none
          | some (v, rest4) =>
            match skipWs rest4 with
            | ',' :: rest5 =>
                (parseMembers fuel (skipWs rest5)).map
                  (fun r => ((String.mk key, v) :: r.1, r.2))
            | '}' :: rest5 => some ([(String.mk key, v)], rest5)
            | _ => none
        | _ => none
    | _ => none

end

/-- `JSON.parse`: parse one value and require only whitespace after it. -/
def jsonParse (s : String) : Option Json :=
  match parseVal (2 * s.length + 16) s.data with
  | some (v, rest) => if (skipWs rest).isEmpty then some v else none
  | none => none

/-! ### The scan-products edge function

Embeds the `serve` handler of `supabase/functions/scan-products/index.ts`
from the upstream `fetch` response on: status mapping, code-fence cleanup,
defensive parse, product filtering/enhancement, and the HTTP response. -/

/-- `lit` is a leading pattern of `r` (character-by-character comparison). -/
def charsMatch : List Char → List Char → Bool
  | [], _ => true
  | _ :: _, [] => false
  | a :: as, b :: bs => a == b && charsMatch as bs

/-- JavaScript string whitespace as trimmed by `String.prototype.trim`
(ASCII part: space, tab, and the line terminators). -/
def isTrimWs (c : Char) : Bool :=
  c == ' ' || c == '\t' || c == '\n' || c == '\r' || c.toNat == 11 || c.toNat == 12

/-- `content.trim()` on the character list. -/
def trimChars (l : List Char) : List Char :=
  ((l.dropWhile isTrimWs).reverse.dropWhile isTrimWs).reverse

/-- Drops one leading newline if present (the `\n?` of the fence regexes). -/
def stripOptNl : List Char → List Char
  | '\n' :: t => t
  | l => l

/-- `replace(/\n?```$/, "")`: removes a trailing fence and the newline
just before it. -/
def stripTrailingFence (l : List Char) : List Char :=
  let r := l.reverse
  if charsMatch ['`', '`', '`'] r then
    let r2 := r.drop 3
    (match r2 with
     | '\n' :: t => t
     | _ => r2).reverse
  else l

/-- Lines 127-133 of the handler: `content.trim()` followed by removal of a
Markdown code fence (```json ... ``` or ``` ... ```). -/
def cleanFences (content : String) : String :=
  let l := trimChars content.data
  let l2 :=
    if charsMatch ("```json".data) l then stripTrailingFence (stripOptNl (l.drop 7))
    else if charsMatch ("```".data) l then stripTrailingFence (stripOptNl (l.drop 3))
    else l
  String.mk l2

/-- The filter `typeof p === 'object' && p !== null && 'name' in p &&
'category' in p`: only non-null objects exposing both keys pass (a JS array
is `typeof 'object'` but has neither property). -/
def hasNameCategory (p : Json) : Bool :=
  match p with
  | Json.obj fields =>
      fields.any (fun f => f.1 == "name") && fields.any (fun f => f.1 == "category")
  | _ => false

/-- A product as assembled by the edge function's `.map`. -/
structure EdgeProduct where
  name : Json
  category : Json
  confidence : Json
  searchUrl : String

/-- The default confidence `0.8` applied by `p.confidence || 0.8`. -/
def defaultConfidence : ℚ := mkRat 4 5

/-- `{ name: p.name, category: p.category, confidence: p.confidence || 0.8,
searchUrl: `https://www.amazon.com/s?k=${encodeURIComponent(p.name)}` }`.
`undefined` properties are modelled by `Option.none`; `x || d` keeps `x`
only when truthy. -/
def toEdgeProduct (p : Json) : EdgeProduct :=
  let nameV := (jsGet p ("name")).getD Json.null
  let catV := (jsGet p ("category")).getD Json.null
  let confV :=
    match jsGet p ("confidence") with
    | some v => if jsTruthy v then v else Json.num (JNum.fin defaultConfidence)
    | none => Json.num (JNum.fin defaultConfidence)
  { name := nameV
    category := catV
    confidence := confV
    searchUrl := "https://www.amazon.com/s?k=" ++ encodeURIComponent (jsToString nameV) }

/-- Lines 125-156: the defensive parse of the model's answer.  A parse
failure or a non-array answer yields the empty product list; array entries
are filtered by `hasNameCategory` and mapped by `toEdgeProduct`. -/
def edgeParseProducts (content : String) : List EdgeProduct :=
  match jsonParse (cleanFences content) with
  | some (Json.arr items) => (items.filter hasNameCategory).map toEdgeProduct
  | some _ => []
  | none => []

/-- Body of an edge-function HTTP response. -/
inductive EdgeBody where
  | err (msg : String) : EdgeBody
  | products (ps : List EdgeProduct) : EdgeBody

/-- An edge-function HTTP response. -/
structure EdgeResponse where
  status : ℕ
  body : EdgeBody

/-- `Response.ok` of the Fetch API: status in `[200, 299]`. -/
def respOk (s : ℕ) : Bool := 200 ≤ s && s ≤ 299

/-- Lines 98-163 of the handler, from the upstream `fetch` response on.
`ustatus` is the upstream AI-gateway status; `content` is
`aiResponse.choices?.[0]?.message?.content` (`none` = absent, and the
`|| "[]"` default also applies to an empty string, which is falsy).
A non-ok upstream status short-circuits: 429 and 402 map to distinguished
messages, anything else is thrown and caught as a 500 generic error. -/
def edgeHandler (ustatus : ℕ) (content : Option String) : EdgeResponse :=
  if !respOk ustatus then
    if ustatus == 429 then
      { status := 429, body := EdgeBody.err ("Rate limit exceeded. Please try again in a moment.") }
    else if ustatus == 402 then
      { status := 402, body := EdgeBody.err ("AI usage limit reached. Please upgrade your plan.") }
    else
      { status := 500, body := EdgeBody.err ("AI API error: " ++ toString ustatus) }
  else
    let c :=
      match content with
      | none => "[]"
      | some s => if s == "" then "[]" else s
    { status := 200, body := EdgeBody.products (edgeParseProducts c) }

/-- What `supabase.functions.invoke` hands the client: a non-2xx response
surfaces as an error (whose message carries the edge function's
distinguished reason), a 2xx response yields the parsed body. -/
def invokeResult (r : EdgeResponse) : Except String (List EdgeProduct) :=
  if respOk r.status then
    match r.body with
    | EdgeBody.products ps => Except.ok ps
    | EdgeBody.err m => Except.error m
  else
    match r.body with
    | EdgeBody.err m => Except.error m
    | EdgeBody.products _ => Except.error ("Edge Function returned a non-2xx status code")

/-! ### extractYoutubeId

The component's `extractYoutubeId` tries seven regular expressions in order
and returns the first capture.  Each pattern is a literal followed by a
capture of exactly eleven id characters `[a-zA-Z0-9_-]`; the second pattern
additionally allows arbitrary non-newline characters (`.*`, greedy) between
`youtube.com/watch?` and `v=`.  `findSimple` scans for the leftmost position
where a literal-then-eleven-id-chars match succeeds; `findWildcard` scans
for the leftmost position where the literal matches and a `v=` capture
exists later on the same line, taking the last such capture (greedy `.*`). -/

/-- The id-character class `[a-zA-Z0-9_-]`. -/
def isIdChar (c : Char) : Bool :=
  ('a' ≤ c && c ≤ 'z') || ('A' ≤ c && c ≤ 'Z') || ('0' ≤ c && c ≤ '9')
    || c == '_' || c == '-'

/-- Eleven id characters start here (`([a-zA-Z0-9_-]{11})` can match). -/
def idHead (r : List Char) : Bool :=
  decide (11 ≤ r.length) && (r.take 11).all isIdChar

/-- The literal fits and matches at the head of `r`. -/
def litAt (lit r : List Char) : Bool :=
  decide (lit.length ≤ r.length) && charsMatch lit r

/-- Leftmost match of `lit` followed by an 11-character id capture. -/
def findSimple (lit : List Char) : List Char → Option (List Char)
  | [] => none
  | c :: cs =>
      if litAt lit (c :: cs) && idHead (List.drop lit.length (c :: cs)) then
        some (List.take 11 (List.drop lit.length (c :: cs)))
      else findSimple lit cs

/-- A `v=` immediately here, followed by an 11-character id capture. -/
def vEqHere (r : List Char) : Bool :=
  litAt ['v', '='] r && idHead (List.drop 2 r)

/-- The capture of the *last* `v=`-match reachable without crossing a
newline (the greedy `.*` of pattern two). -/
def lastVCapture : List Char → Option (List Char)
  | [] => none
  | c :: cs =>
      let here := if vEqHere (c :: cs) then some (List.take 11 (List.drop 2 (c :: cs))) else none
      if c == '\n' then here
      else
        match lastVCapture cs with
        | some r => some r
        | none => here

/-- Leftmost position where the literal matches and a `v=` capture follows
on the same line (pattern `youtube\.com\/watch\?.*v=` with its capture). -/
def findWildcard (lit : List Char) : List Char → Option (List Char)
  | [] => none
  | c :: cs =>
      if litAt lit (c :: cs) then
        match lastVCapture (List.drop lit.length (c :: cs)) with
        | some r => some r
        | none => findWildcard lit cs
      else findWildcard lit cs

def pat1 : List Char := "youtube.com/watch?v=".data
def pat2 : List Char := "youtube.com/watch?".data
def pat3 : List Char := "youtu.be/".data
def pat4 : List Char := "youtube.com/embed/".data
def pat5 : List Char := "youtube.com/v/".data
def pat6 : List Char := "youtube.com/shorts/".data
def pat7 : List Char := "youtube.com/live/".data

/-- The pattern loop of `extractYoutubeId` over the character list: try
the seven patterns in order, return the first capture. -/
def extractYoutubeIdL (l : List Char) : Option (List Char) :=
  match findSimple pat1 l with
  | some r => some r
  | none =>
  match findWildcard pat2 l with
  | some r => some r
  | none =>
  match findSimple pat3 l with
  | some r => some r
  | none =>
  match findSimple pat4 l with
  | some r => some r
  | none =>
  match findSimple pat5 l with
  | some r => some r
  | none =>
  match findSimple pat6 l with
  | some r => some r
  | none =>
  match findSimple pat7 l with
  | some r => some r
  | none => none

/-- Lines 104-122 of the component: try the seven patterns in order,
return the first capture, `null` (here `none`) when all fail. -/
def extractYoutubeId (url : String) : Option String :=
  (extractYoutubeIdL url.data).map String.mk

/-! ### The VideoPlayer component

State and event model of the `VideoPlayer` page.  The component state keeps
exactly the React state the scan flow touches; effects are explicit:
dispatched classification requests are returned alongside the new state and
toasts are accumulated in order.  The in-flight request list models the
unresolved `supabase.functions.invoke` promises; a `respond` event resolves
one of them (only dispatched requests can resolve).  `Math.random()` draws
and `Date.now()` are parameters of the response event. -/

/-- A toast raised through `useToast` (`destructive` marks the error
variant). -/
structure Toast where
  title : String
  description : String
  destructive : Bool
deriving DecidableEq

/-- The body sent to the `scan-products` edge function. -/
structure ScanRequest where
  videoId : String
  imageData : String
  isUrl : Bool
deriving DecidableEq

/-- An overlay position in percentage-of-viewport coordinates. -/
structure OverlayPos where
  x : ℚ
  y : ℚ

/-- A `ScannedProduct` with the synthetic id and position added by the
response handler. -/
structure PositionedProduct where
  name : Json
  category : Json
  confidence : Json
  searchUrl : String
  pid : String
  pos : OverlayPos

/-- Lines 374-381: `productsWithPositions`.  The i-th product (0-indexed)
gets `x = 10 + (i % 3)*30 + jx i` and `y = 10 + ⌊i / 3⌋*25 + jy i`, where
`jx i, jy i` stand for the two `Math.random() * 10` draws. -/
def withPositionsFrom (jx jy : ℕ → ℚ) (now : ℕ) : ℕ → List EdgeProduct → List PositionedProduct
  | _, [] => []
  | i, p :: rest =>
      { name := p.name
        category := p.category
        confidence := p.confidence
        searchUrl := p.searchUrl
        pid := toString now ++ "-" ++ toString i
        pos := { x := 10 + ((i % 3 : ℕ) : ℚ) * 30 + jx i
                 y := 10 + ((i / 3 : ℕ) : ℚ) * 25 + jy i } }
        :: withPositionsFrom jx jy now (i + 1) rest

def withPositions (ps : List EdgeProduct) (jx jy : ℕ → ℚ) (now : ℕ) : List PositionedProduct :=
  withPositionsFrom jx jy now 0 ps

/-- The DOM facts `captureFrame` consults: the refs, the 2d context, the
reported video dimensions, whether `drawImage`/`toDataURL` throws
(cross-origin tainting), and the data-URL produced on success. -/
structure CaptureEnv where
  hasVideoEl : Bool
  hasCanvasEl : Bool
  hasCtx : Bool
  videoWidth : ℕ
  videoHeight : ℕ
  drawThrows : Bool
  dataUrl : String

/-- Lines 293-317: `captureFrame`.  Returns `none` when a ref or the 2d
context is missing, when the video reports zero width or height, or when
rasterization throws; otherwise the JPEG data-URL. -/
def captureFrame (env : CaptureEnv) : Option String :=
  if !env.hasVideoEl || !env.hasCanvasEl then none
  else if !env.hasCtx then none
  else if env.videoWidth == 0 || env.videoHeight == 0 then none
  else if env.drawThrows then none
  else some env.dataUrl

/-- Line 319-322: highest-quality thumbnail URL for a YouTube id. -/
def getYoutubeThumbnail (videoId : String) : String :=
  "https://img.youtube.com/vi/" ++ videoId ++ "/maxresdefault.jpg"

/-- The React state of the `VideoPlayer` page relevant to the scan flow,
plus the explicit in-flight request list and the toast log. -/
structure PlayerState where
  videoDbId : String
  videoUrl : String
  sourceType : String
  isPlaying : Bool
  isScanning : Bool
  scannedProducts : List PositionedProduct
  showProducts : Bool
  inFlight : List ScanRequest
  toasts : List Toast

/-- The freshly mounted page for a library video. -/
def initPlayer (vid url ty : String) : PlayerState :=
  { videoDbId := vid, videoUrl := url, sourceType := ty
    isPlaying := false, isScanning := false
    scannedProducts := [], showProducts := false
    inFlight := [], toasts := [] }

/-- Lines 324-360: the synchronous part of `scanProducts`, up to the
`supabase.functions.invoke` suspension point: pause, capture (thumbnail URL
for YouTube, canvas frame otherwise), early-return toast on capture
failure, else clear results, set `isScanning` and dispatch one request. -/
def scanImage (s : PlayerState) (env : CaptureEnv) : Option String :=
  if s.sourceType == "youtube" then
    match extractYoutubeId s.videoUrl with
    | some vid => some (getYoutubeThumbnail vid)
    | none => none
  else captureFrame env

def scanDispatch (s : PlayerState) (env : CaptureEnv) : PlayerState × List ScanRequest :=
  let isYt := s.sourceType == "youtube"
  let s1 := { s with isPlaying := false }
  match scanImage s env with
  | none =>
      ({ s1 with toasts := s1.toasts ++
          [{ title := "Could not capture frame", description := "Please try again.", destructive := true }] },
       [])
  | some img =>
      let req : ScanRequest := { videoId := s.videoDbId, imageData := img, isUrl := isYt }
      ({ s1 with isScanning := true, showProducts := false, scannedProducts := []
                 inFlight := s1.inFlight ++ [req] },
       [req])

/-- The `disabled` prop of the Scan Products button: `isScanning` on the
YouTube surface (line 564), `isScanning || isPlaying` on the upload surface
(line 712). -/
def scanDisabled (s : PlayerState) : Bool :=
  if s.sourceType == "youtube" then s.isScanning else s.isScanning || s.isPlaying

/-- A click on the Scan Products button: a disabled control dispatches
nothing. -/
def clickScan (s : PlayerState) (env : CaptureEnv) : PlayerState × List ScanRequest :=
  if scanDisabled s then (s, []) else scanDispatch s env

/-- Lines 371-403: the response half of `scanProducts`.  Note that the
handler applies the result unconditionally — it never compares the
request's originating video id with the current one.  The `finally` clears
`isScanning`. -/
def applyScanResult (s : PlayerState) (req : ScanRequest)
    (result : Except String (List EdgeProduct)) (jx jy : ℕ → ℚ) (now : ℕ) : PlayerState :=
  let s0 := { s with inFlight := s.inFlight.erase req }
  match result with
  | Except.ok ps =>
      if ps.length > 0 then
        { s0 with
          scannedProducts := withPositions ps jx jy now
          showProducts := true
          toasts := s0.toasts ++
            [{ title := "Products found!"
               description := "Discovered " ++ toString ps.length ++ " shoppable item"
                 ++ (if ps.length > 1 then "s" else "") ++ "."
               destructive := false }]
          isScanning := false }
      else
        { s0 with
          toasts := s0.toasts ++
            [{ title := "No products found"
               description := "Try scanning a different frame with visible products."
               destructive := false }]
          isScanning := false }
  | Except.error msg =>
      { s0 with
        toasts := s0.toasts ++
          [{ title := "Scan failed"
             description := if msg == "" then "Please try again later." else msg
             destructive := true }]
        isScanning := false }

/-- Page-level events: a scan-button click, the resolution of a dispatched
request, and navigation to another video (the route param changes; React
keeps the component state). -/
inductive PlayerEvent where
  | click (env : CaptureEnv) : PlayerEvent
  | respond (req : ScanRequest) (result : Except String (List EdgeProduct))
      (jx jy : ℕ → ℚ) (now : ℕ) : PlayerEvent
  | nav (newId newUrl newType : String) : PlayerEvent

/-- One event step; the second component lists the requests dispatched by
the step.  A `respond` for a request that is not in flight is a no-op. -/
def playerStep (s : PlayerState) : PlayerEvent → PlayerState × List ScanRequest
  | PlayerEvent.click env => clickScan s env
  | PlayerEvent.respond req result jx jy now =>
      if s.inFlight.contains req then (applyScanResult s req result jx jy now, [])
      else (s, [])
  | PlayerEvent.nav i u t =>
      ({ s with videoDbId := i, videoUrl := u, sourceType := t }, [])

/-- Runs a sequence of events, accumulating dispatched requests. -/
def runPlayer (s : PlayerState) : List PlayerEvent → PlayerState × List ScanRequest
  | [] => (s, [])
  | e :: es =>
      let (s1, r1) := playerStep s e
      let (s2, r2) := runPlayer s1 es
      (s2, r1 ++ r2)

/-! ## Claims -/

/-- Claim C4: A candidate entry exposing a name and a category but no
confidence yields a `Product` whose confidence is the 0.8 default
(`defaultConfidence = 4/5`) and whose purchase URL is the fixed Amazon
search template applied to the URL-encoded name; entries missing a name or
a category are discarded by the filter without affecting the rest of the
batch; and on the response
`[{"name":"Black leather crossbody bag","category":"Fashion"}]` the
resulting product has confidence 0.8 and a purchase URL containing the
URL-encoded name. -/
theorem entry_mapping_defaults_and_url
    (name : String) (cat bad : Json) (pre post : List Json)
    (hbad : hasNameCategory bad = false) :
    (hasNameCategory (Json.obj [(("name"), Json.str name), (("category"), cat)]) = true
      ∧ (toEdgeProduct (Json.obj [(("name"), Json.str name), (("category"), cat)])).confidence
          = Json.num (JNum.fin defaultConfidence)
      ∧ (toEdgeProduct (Json.obj [(("name"), Json.str name), (("category"), cat)])).searchUrl
          = "https://www.amazon.com/s?k=" ++ encodeURIComponent name)
    ∧ ((pre ++ bad :: post).filter hasNameCategory).map toEdgeProduct
        = ((pre.filter hasNameCategory).map toEdgeProduct
            ++ (post.filter hasNameCategory).map toEdgeProduct)
    ∧ edgeParseProducts ("[\x7b\"name\":\"Black leather crossbody bag\",\"category\":\"Fashion\"\x7d]")
        = [{ name := Json.str ("Black leather crossbody bag"), category := Json.str ("Fashion"),
             confidence := Json.num (JNum.fin defaultConfidence),
             searchUrl := "https://www.amazon.com/s?k=Black%20leather%20crossbody%20bag" }]
    ∧ defaultConfidence = mkRat 4 5
    ∧ encodeURIComponent ("Black leather crossbody bag") = "Black%20leather%20crossbody%20bag" := by
  refine ⟨⟨?_, ?_, ?_⟩, ?_, rfl, rfl, rfl⟩
  · simp [hasNameCategory]
  · simp [toEdgeProduct, jsGet]
  · simp [toEdgeProduct, jsGet, jsToString]
  · simp [List.filter_append, List.filter_cons, hbad]

/-- Witness for C4 at a concrete instance (the bad entry is a bare string,
which the filter discards). -/
theorem entry_mapping_defaults_and_url_witness :
    hasNameCategory (Json.str ("just text")) = false
    ∧ (hasNameCategory (Json.obj [(("name"), Json.str ("Red scarf")), (("category"), Json.str ("Fashion"))]) = true
        ∧ (toEdgeProduct (Json.obj [(("name"), Json.str ("Red scarf")), (("category"), Json.str ("Fashion"))])).confidence
            = Json.num (JNum.fin defaultConfidence)
        ∧ (toEdgeProduct (Json.obj [(("name"), Json.str ("Red scarf")), (("category"), Json.str ("Fashion"))])).searchUrl
            = "https://www.amazon.com/s?k=" ++ encodeURIComponent ("Red scarf"))
    ∧ (([] ++ Json.str ("just text") :: []).filter hasNameCategory).map toEdgeProduct
        = ((([] : List Json).filter hasNameCategory).map toEdgeProduct
            ++ (([] : List Json).filter hasNameCategory).map toEdgeProduct)
    ∧ edgeParseProducts ("[\x7b\"name\":\"Black leather crossbody bag\",\"category\":\"Fashion\"\x7d]")
        = [{ name := Json.str ("Black leather crossbody bag"), category := Json.str ("Fashion"),
             confidence := Json.num (JNum.fin defaultConfidence),
             searchUrl := "https://www.amazon.com/s?k=Black%20leather%20crossbody%20bag" }]
    ∧ defaultConfidence = mkRat 4 5
    ∧ encodeURIComponent ("Black leather crossbody bag") = "Black%20leather%20crossbody%20bag" :=
  ⟨rfl, entry_mapping_defaults_and_url ("Red scarf") (Json.str ("Fashion")) (Json.str ("just text")) [] [] rfl⟩

/-- Claim C10: The `p.confidence || 0.8` default applies to *every* falsy
confidence, not only a missing one: any entry whose confidence property is
falsy (in particular an explicit `0` or `NaN`) gets confidence 0.8, so a
zero-confidence entry maps to exactly the same product as one with no
confidence at all. -/
theorem falsy_confidence_defaulted
    (entry v : Json) (name : String) (cat : Json)
    (hv : jsGet entry ("confidence") = some v) (hfalsy : jsTruthy v = false) :
    (toEdgeProduct entry).confidence = Json.num (JNum.fin defaultConfidence)
    ∧ jsTruthy (Json.num (JNum.fin 0)) = false
    ∧ jsTruthy (Json.num JNum.nan) = false
    ∧ toEdgeProduct (Json.obj
        [(("name"), Json.str name), (("category"), cat), (("confidence"), Json.num (JNum.fin 0))])
      = toEdgeProduct (Json.obj [(("name"), Json.str name), (("category"), cat)]) := by
  refine ⟨?_, rfl, rfl, ?_⟩
  · simp [toEdgeProduct, hv, hfalsy]
  · simp [toEdgeProduct, jsGet, jsTruthy]

/-- Witness for C10: an entry carrying an explicit zero confidence. -/
theorem falsy_confidence_defaulted_witness :
    jsGet (Json.obj [(("name"), Json.str ("Red scarf")), (("confidence"), Json.num (JNum.fin 0))]) ("confidence")
        = some (Json.num (JNum.fin 0))
    ∧ jsTruthy (Json.num (JNum.fin 0)) = false
    ∧ (toEdgeProduct (Json.obj [(("name"), Json.str ("Red scarf")), (("confidence"), Json.num (JNum.fin 0))])).confidence
        = Json.num (JNum.fin defaultConfidence) :=
  ⟨rfl, rfl,
    (falsy_confidence_defaulted
      (Json.obj [(("name"), Json.str ("Red scarf")), (("confidence"), Json.num (JNum.fin 0))])
      (Json.num (JNum.fin 0)) ("x") Json.null rfl rfl).1⟩

/-- Resolving a response never dispatches a request (no automatic retry). -/
theorem respond_dispatches_nothing (s : PlayerState) (req : ScanRequest)
    (res : Except String (List EdgeProduct)) (jx jy : ℕ → ℚ) (now : ℕ) :
    (playerStep s (PlayerEvent.respond req res jx jy now)).2 = [] := by
  simp only [playerStep]
  split <;> rfl

/-- Claim C5: A non-success upstream status ends the scan in the failed state
with a distinguished sub-reason: 429 maps to the rate-limit message, 402 to
the quota message, any other non-ok status to the generic failure message;
the client surfaces a destructive "Scan failed" toast, clears `isScanning`,
and no further request is dispatched (no automatic retry). -/
theorem service_error_status_mapping
    (ustatus : ℕ) (content : Option String) (s : PlayerState) (req : ScanRequest)
    (jx jy : ℕ → ℚ) (now : ℕ) (hbad : respOk ustatus = false) :
    ((ustatus = 429 → (edgeHandler ustatus content).body
        = EdgeBody.err ("Rate limit exceeded. Please try again in a moment."))
     ∧ (ustatus = 402 → (edgeHandler ustatus content).body
        = EdgeBody.err ("AI usage limit reached. Please upgrade your plan."))
     ∧ (ustatus ≠ 429 → ustatus ≠ 402 → (edgeHandler ustatus content).body
        = EdgeBody.err ("AI API error: " ++ toString ustatus)))
    ∧ respOk (edgeHandler ustatus content).status = false
    ∧ (∃ m, invokeResult (edgeHandler ustatus content) = Except.error m
        ∧ (edgeHandler ustatus content).body = EdgeBody.err m
        ∧ ∃ d,
            (applyScanResult s req (invokeResult (edgeHandler ustatus content)) jx jy now).isScanning = false
            ∧ (applyScanResult s req (invokeResult (edgeHandler ustatus content)) jx jy now).toasts
                = s.toasts ++ [{ title := "Scan failed", description := d, destructive := true }]
            ∧ (applyScanResult s req (invokeResult (edgeHandler ustatus content)) jx jy now).inFlight
                = s.inFlight.erase req)
    ∧ (playerStep s (PlayerEvent.respond req (invokeResult (edgeHandler ustatus content)) jx jy now)).2
        = [] := by
  have herr : ∃ m, edgeHandler ustatus content
      = { status := if ustatus = 429 then 429 else if ustatus = 402 then 402 else 500,
          body := EdgeBody.err m } := by
    by_cases h1 : ustatus = 429
    · subst h1
      exact ⟨_, rfl⟩
    · by_cases h2 : ustatus = 402
      · subst h2
        refine ⟨("AI usage limit reached. Please upgrade your plan."), ?_⟩
        simp [edgeHandler, hbad]
      · refine ⟨"AI API error: " ++ toString ustatus, ?_⟩
        have hb1 : (ustatus == 429) = false := by simp [h1]
        have hb2 : (ustatus == 402) = false := by simp [h2]
        simp [edgeHandler, hbad, hb1, hb2, h1, h2]
  obtain ⟨m, hm⟩ := herr
  have hstat : respOk (edgeHandler ustatus content).status = false := by
    rw [hm]
    by_cases h1 : ustatus = 429 <;> by_cases h2 : ustatus = 402 <;>
      simp [h1, h2, respOk]
  have hinv : invokeResult (edgeHandler ustatus content) = Except.error m := by
    rw [hm] at hstat ⊢
    simp [invokeResult, hstat]
  refine ⟨⟨?_, ?_, ?_⟩, hstat, ⟨m, hinv, ?_, ?_⟩, respond_dispatches_nothing ..⟩
  · intro h1
    subst h1
    rfl
  · intro h2
    subst h2
    simp [edgeHandler, hbad]
  · intro h1 h2
    have hb1 : (ustatus == 429) = false := by simp [h1]
    have hb2 : (ustatus == 402) = false := by simp [h2]
    simp [edgeHandler, hbad, hb1, hb2]
  · rw [hm]
  · rw [hinv]
    refine ⟨(if m == "" then "Please try again later." else m), ?_, ?_, ?_⟩ <;>
      simp [applyScanResult]

/-- Witness for C5 at status 429. -/
theorem service_error_status_mapping_witness :
    respOk 429 = false
    ∧ (edgeHandler 429 none).body
        = EdgeBody.err ("Rate limit exceeded. Please try again in a moment.")
    ∧ respOk (edgeHandler 429 none).status = false :=
  ⟨rfl,
    (service_error_status_mapping 429 none (initPlayer ("v") ("u") ("upload"))
      { videoId := "v", imageData := "d", isUrl := false }
      (fun _ => 0) (fun _ => 0) 0 rfl).1.1 rfl,
    (service_error_status_mapping 429 none (initPlayer ("v") ("u") ("upload"))
      { videoId := "v", imageData := "d", isUrl := false }
      (fun _ => 0) (fun _ => 0) 0 rfl).2.1⟩

/-- Claim C6: A model answer that does not parse as an array — including the
literal text `not an array` and any JSON parse failure — yields the empty
product list and a 200 response, and the client ends the scan on the
success path with zero products ("No products found", not destructive),
never in the failed state. -/
theorem nonarray_answer_empty_success
    (content : String) (s : PlayerState) (req : ScanRequest) (jx jy : ℕ → ℚ) (now : ℕ)
    (hna : ∀ items, jsonParse (cleanFences content) ≠ some (Json.arr items)) :
    edgeParseProducts content = []
    ∧ edgeHandler 200 (some content) = { status := 200, body := EdgeBody.products [] }
    ∧ invokeResult { status := 200, body := EdgeBody.products [] } = Except.ok ([] : List EdgeProduct)
    ∧ (applyScanResult s req (Except.ok []) jx jy now).isScanning = false
    ∧ (applyScanResult s req (Except.ok []) jx jy now).scannedProducts = s.scannedProducts
    ∧ (applyScanResult s req (Except.ok []) jx jy now).showProducts = s.showProducts
    ∧ (applyScanResult s req (Except.ok []) jx jy now).toasts
        = s.toasts ++ [{ title := "No products found",
                         description := "Try scanning a different frame with visible products.",
                         destructive := false }] := by
  have hempty : edgeParseProducts content = [] := by
    unfold edgeParseProducts
    cases hp : jsonParse (cleanFences content) with
    | none => rfl
    | some v =>
      cases v with
      | arr items => exact absurd hp (hna items)
      | null => rfl
      | bool b => rfl
      | num n => rfl
      | str s => rfl
      | obj f => rfl
  refine ⟨hempty, ?_, rfl, ?_, ?_, ?_, ?_⟩
  · cases hc : content == "" with
    | true =>
      have : content = "" := by
        simpa using hc
      subst this
      rfl
    | false =>
      simp only [edgeHandler, respOk, hc]
      norm_num
      exact hempty
  all_goals simp [applyScanResult]

/-- Witness for C6 on the literal answer `not an array`. -/
theorem nonarray_answer_empty_success_witness :
    jsonParse (cleanFences ("not an array")) = none
    ∧ edgeParseProducts ("not an array") = []
    ∧ edgeHandler 200 (some ("not an array")) = { status := 200, body := EdgeBody.products [] } := by
  have hp : jsonParse (cleanFences ("not an array")) = none := rfl
  have h := nonarray_answer_empty_success ("not an array")
    (initPlayer ("v") ("u") ("upload")) { videoId := "v", imageData := "d", isUrl := false }
    (fun _ => 0) (fun _ => 0) 0
    (by
      intro items hcontra
      rw [hp] at hcontra
      exact Option.noConfusion hcontra)
  exact ⟨hp, h.1, h.2.1⟩

/-- Claim C7: A capture attempt on the native backend whose video element
reports zero width or zero height produces no frame (`captureFrame`
returns `none`), and the scan surfaces the destructive
"Could not capture frame" toast and dispatches no classification request
(the scan state is otherwise untouched). -/
theorem zero_dims_capture_unavailable
    (env : CaptureEnv) (s : PlayerState)
    (hdim : env.videoWidth = 0 ∨ env.videoHeight = 0) :
    captureFrame env = none
    ∧ (s.sourceType ≠ "youtube" → scanDisabled s = false →
        clickScan s env
          = ({ s with isPlaying := false,
                      toasts := s.toasts ++ [{ title := "Could not capture frame",
                                               description := "Please try again.",
                                               destructive := true }] }, [])) := by
  have hcap : captureFrame env = none := by
    unfold captureFrame
    rcases hdim with h | h <;>
      · split
        · rfl
        · split
          · rfl
          · rw [if_pos]
            simp [h]
  refine ⟨hcap, fun hty hen => ?_⟩
  have hyt : (s.sourceType == "youtube") = false := by
    simpa using hty
  simp [clickScan, hen, scanDispatch, scanImage, hyt, hcap]

/-- Witness for C7: a mounted player whose video has not yet decoded
(zero reported dimensions). -/
theorem zero_dims_capture_unavailable_witness :
    captureFrame { hasVideoEl := true, hasCanvasEl := true, hasCtx := true,
                   videoWidth := 0, videoHeight := 360, drawThrows := false,
                   dataUrl := "data:image/jpeg;base64,zzz" } = none
    ∧ clickScan (initPlayer ("vid-1") ("blob:v1") ("upload"))
        { hasVideoEl := true, hasCanvasEl := true, hasCtx := true,
          videoWidth := 0, videoHeight := 360, drawThrows := false,
          dataUrl := "data:image/jpeg;base64,zzz" }
        = ({ initPlayer ("vid-1") ("blob:v1") ("upload") with
              isPlaying := false,
              toasts := [{ title := "Could not capture frame",
                           description := "Please try again.",
                           destructive := true }] }, []) := by
  have h := zero_dims_capture_unavailable
    { hasVideoEl := true, hasCanvasEl := true, hasCtx := true,
      videoWidth := 0, videoHeight := 360, drawThrows := false,
      dataUrl := "data:image/jpeg;base64,zzz" }
    (initPlayer ("vid-1") ("blob:v1") ("upload")) (Or.inl rfl)
  exact ⟨h.1, by simpa [initPlayer] using h.2 (by decide) rfl⟩

/-- `withPositionsFrom` preserves the list length. -/
theorem withPositionsFrom_length (jx jy : ℕ → ℚ) (now : ℕ) :
    ∀ (ps : List EdgeProduct) (k : ℕ), (withPositionsFrom jx jy now k ps).length = ps.length := by
  intro ps
  induction ps with
  | nil => intro k; rfl
  | cons p rest ih =>
    intro k
    simp [withPositionsFrom, ih]

/-- Length of the positioned product list. -/
theorem withPositions_length (ps : List EdgeProduct) (jx jy : ℕ → ℚ) (now : ℕ) :
    (withPositions ps jx jy now).length = ps.length :=
  withPositionsFrom_length jx jy now ps 0

/-- The position assigned to the element at offset `i` of a
`withPositionsFrom` run started at index `k`. -/
theorem withPositionsFrom_get (jx jy : ℕ → ℚ) (now : ℕ) :
    ∀ (ps : List EdgeProduct) (k i : ℕ) (h : i < (withPositionsFrom jx jy now k ps).length),
      ((withPositionsFrom jx jy now k ps).get ⟨i, h⟩).pos
        = { x := 10 + (((k + i) % 3 : ℕ) : ℚ) * 30 + jx (k + i),
            y := 10 + (((k + i) / 3 : ℕ) : ℚ) * 25 + jy (k + i) } := by
  intro ps
  induction ps with
  | nil =>
    intro k i h
    simp [withPositionsFrom] at h
  | cons p rest ih =>
    intro k i h
    cases i with
    | zero => simp [withPositionsFrom]
    | succ n =>
      have h' : n < (withPositionsFrom jx jy now (k + 1) rest).length := by
        rw [withPositionsFrom_length] at h ⊢
        simp at h
        omega
      have := ih (k + 1) n h'
      simpa [withPositionsFrom, Nat.add_assoc, Nat.add_comm 1 n] using this

/-- The position assigned to the `i`-th scanned product. -/
theorem withPositions_get (ps : List EdgeProduct) (jx jy : ℕ → ℚ) (now : ℕ)
    (i : ℕ) (h : i < (withPositions ps jx jy now).length) :
    ((withPositions ps jx jy now).get ⟨i, h⟩).pos
      = { x := 10 + ((i % 3 : ℕ) : ℚ) * 30 + jx i,
          y := 10 + ((i / 3 : ℕ) : ℚ) * 25 + jy i } := by
  have := withPositionsFrom_get jx jy now ps 0 i h
  simpa using this

/-- Claim C8: The `i`-th product is placed at
`x = 10 + (i mod 3)·30 + jitter_x` and `y = 10 + ⌊i/3⌋·25 + jitter_y` with
per-axis jitter in `[0, 10)`; consequently the `x` coordinate falls in one
of three disjoint buckets (`[10,20)`, `[40,50)`, `[70,80)`) selected by
`i mod 3`, and for indices 0..5 the `y` coordinate falls in one of two
bands (`[10,20)` for indices 0..2, `[35,45)` for 3..5). -/
theorem overlay_grid_positions
    (ps : List EdgeProduct) (jx jy : ℕ → ℚ) (now : ℕ)
    (hjx : ∀ n, 0 ≤ jx n ∧ jx n < 10) (hjy : ∀ n, 0 ≤ jy n ∧ jy n < 10)
    (i : ℕ) (h : i < (withPositions ps jx jy now).length) :
    ((withPositions ps jx jy now).get ⟨i, h⟩).pos.x = 10 + ((i % 3 : ℕ) : ℚ) * 30 + jx i
    ∧ ((withPositions ps jx jy now).get ⟨i, h⟩).pos.y = 10 + ((i / 3 : ℕ) : ℚ) * 25 + jy i
    ∧ (i % 3 = 0 → 10 ≤ ((withPositions ps jx jy now).get ⟨i, h⟩).pos.x
        ∧ ((withPositions ps jx jy now).get ⟨i, h⟩).pos.x < 20)
    ∧ (i % 3 = 1 → 40 ≤ ((withPositions ps jx jy now).get ⟨i, h⟩).pos.x
        ∧ ((withPositions ps jx jy now).get ⟨i, h⟩).pos.x < 50)
    ∧ (i % 3 = 2 → 70 ≤ ((withPositions ps jx jy now).get ⟨i, h⟩).pos.x
        ∧ ((withPositions ps jx jy now).get ⟨i, h⟩).pos.x < 80)
    ∧ (i ≤ 5 →
        ((i < 3 → 10 ≤ ((withPositions ps jx jy now).get ⟨i, h⟩).pos.y
            ∧ ((withPositions ps jx jy now).get ⟨i, h⟩).pos.y < 20)
         ∧ (3 ≤ i → 35 ≤ ((withPositions ps jx jy now).get ⟨i, h⟩).pos.y
            ∧ ((withPositions ps jx jy now).get ⟨i, h⟩).pos.y < 45))) := by
  have hpos := withPositions_get ps jx jy now i h
  have hx : ((withPositions ps jx jy now).get ⟨i, h⟩).pos.x
      = 10 + ((i % 3 : ℕ) : ℚ) * 30 + jx i := by rw [hpos]
  have hy : ((withPositions ps jx jy now).get ⟨i, h⟩).pos.y
      = 10 + ((i / 3 : ℕ) : ℚ) * 25 + jy i := by rw [hpos]
  obtain ⟨hjx0, hjx1⟩ := hjx i
  obtain ⟨hjy0, hjy1⟩ := hjy i
  refine ⟨hx, hy, ?_, ?_, ?_, ?_⟩
  · intro hm
    rw [hx, hm]
    norm_num
    constructor <;> linarith
  · intro hm
    rw [hx, hm]
    norm_num
    constructor <;> linarith
  · intro hm
    rw [hx, hm]
    norm_num
    constructor <;> linarith
  · intro _
    constructor
    · intro hi3
      have hq : i / 3 = 0 := by omega
      rw [hy, hq]
      norm_num
      constructor <;> linarith
    · intro hi3
      have hq : i / 3 = 1 := by omega
      rw [hy, hq]
      norm_num
      constructor <;> linarith

/-- A jitter of zero on both axes (one possible draw). -/
def zeroJitter : ℕ → ℚ := fun _ => 0

/-- A sample product for concrete traces. -/
def exProduct : EdgeProduct :=
  { name := Json.str ("Black leather crossbody bag")
    category := Json.str ("Fashion")
    confidence := Json.num (JNum.fin defaultConfidence)
    searchUrl := "https://www.amazon.com/s?k=Black%20leather%20crossbody%20bag" }

/-- Witness for C8 at index 4 of a six-product scan with a concrete
jitter. -/
theorem overlay_grid_positions_witness :
    (∀ n, 0 ≤ zeroJitter n ∧ zeroJitter n < 10)
    ∧ (4 % 3 = 1 →
        40 ≤ ((withPositions (List.replicate 6 exProduct) zeroJitter zeroJitter 0).get
            ⟨4, by rw [withPositions_length]; norm_num⟩).pos.x
        ∧ ((withPositions (List.replicate 6 exProduct) zeroJitter zeroJitter 0).get
            ⟨4, by rw [withPositions_length]; norm_num⟩).pos.x < 50) := by
  have hz : ∀ n, 0 ≤ zeroJitter n ∧ zeroJitter n < 10 := by
    intro n
    constructor <;> norm_num [zeroJitter]
  exact ⟨hz,
    (overlay_grid_positions (List.replicate 6 exProduct) zeroJitter zeroJitter 0 hz hz 4
      (by rw [withPositions_length]; norm_num)).2.2.2.1⟩

/-- Claim C9, counterexample: The claim "every product position satisfies
`0 ≤ x, y ≤ 100`" fails on the code: in a thirteen-product scan the
product at index 12 is placed at `y = 10 + ⌊12/3⌋·25 + jitter = 110 + jitter`,
outside the viewport even with zero jitter. -/
theorem overlay_y_overflow_at_index_12 :
    100 < ((withPositions (List.replicate 13 exProduct) zeroJitter zeroJitter 0).get
      ⟨12, by rw [withPositions_length]; norm_num⟩).pos.y := by
  rw [withPositions_get]
  norm_num [zeroJitter]

/-- Claim C9, amended: Every assigned position satisfies `0 ≤ x ≤ 100`
(indeed `x < 80`) and `0 ≤ y`; the upper bound `y ≤ 100` holds exactly for
products of index at most 11 (the first twelve products, four pseudo-grid
rows). -/
theorem overlay_positions_bounded
    (ps : List EdgeProduct) (jx jy : ℕ → ℚ) (now : ℕ)
    (hjx : ∀ n, 0 ≤ jx n ∧ jx n < 10) (hjy : ∀ n, 0 ≤ jy n ∧ jy n < 10)
    (i : ℕ) (h : i < (withPositions ps jx jy now).length) :
    0 ≤ ((withPositions ps jx jy now).get ⟨i, h⟩).pos.x
    ∧ ((withPositions ps jx jy now).get ⟨i, h⟩).pos.x ≤ 100
    ∧ 0 ≤ ((withPositions ps jx jy now).get ⟨i, h⟩).pos.y
    ∧ (i ≤ 11 → ((withPositions ps jx jy now).get ⟨i, h⟩).pos.y ≤ 100) := by
  have hpos := withPositions_get ps jx jy now i h
  obtain ⟨hjx0, hjx1⟩ := hjx i
  obtain ⟨hjy0, hjy1⟩ := hjy i
  have hm3 : ((i % 3 : ℕ) : ℚ) ≤ 2 := by
    have : i % 3 ≤ 2 := by omega
    exact_mod_cast this
  have hm0 : (0 : ℚ) ≤ ((i % 3 : ℕ) : ℚ) := by positivity
  have hd0 : (0 : ℚ) ≤ ((i / 3 : ℕ) : ℚ) := by positivity
  refine ⟨?_, ?_, ?_, ?_⟩
  · rw [hpos]
    simp only
    linarith
  · rw [hpos]
    simp only
    linarith
  · rw [hpos]
    simp only
    linarith
  · intro hle
    have hd3 : ((i / 3 : ℕ) : ℚ) ≤ 3 := by
      have : i / 3 ≤ 3 := by omega
      exact_mod_cast this
    rw [hpos]
    simp only
    linarith

/-- Witness for the amended C9 at index 12 of a thirteen-product scan
(where only the `x` bound and the `y` lower bound apply). -/
theorem overlay_positions_bounded_witness :
    (∀ n, 0 ≤ zeroJitter n ∧ zeroJitter n < 10)
    ∧ (0 ≤ ((withPositions (List.replicate 13 exProduct) zeroJitter zeroJitter 0).get
          ⟨12, by rw [withPositions_length]; norm_num⟩).pos.x
       ∧ ((withPositions (List.replicate 13 exProduct) zeroJitter zeroJitter 0).get
          ⟨12, by rw [withPositions_length]; norm_num⟩).pos.x ≤ 100
       ∧ 0 ≤ ((withPositions (List.replicate 13 exProduct) zeroJitter zeroJitter 0).get
          ⟨12, by rw [withPositions_length]; norm_num⟩).pos.y
       ∧ (12 ≤ 11 → ((withPositions (List.replicate 13 exProduct) zeroJitter zeroJitter 0).get
          ⟨12, by rw [withPositions_length]; norm_num⟩).pos.y ≤ 100)) := by
  have hz : ∀ n, 0 ≤ zeroJitter n ∧ zeroJitter n < 10 := by
    intro n
    constructor <;> norm_num [zeroJitter]
  exact ⟨hz,
    overlay_positions_bounded (List.replicate 13 exProduct) zeroJitter zeroJitter 0 hz hz 12
      (by rw [withPositions_length]; norm_num)⟩

/-- The single-flight invariant: at most one request is in flight, and the
scanning flag is set exactly while one is. -/
def scanInv (s : PlayerState) : Prop :=
  s.inFlight.length ≤ 1 ∧ (s.isScanning = true ↔ s.inFlight.length = 1)

/-- A scan button that is not disabled means the scanning flag is off. -/
theorem notDisabled_notScanning (s : PlayerState) (h : scanDisabled s = false) :
    s.isScanning = false := by
  unfold scanDisabled at h
  split at h
  · exact h
  · exact (Bool.or_eq_false_iff.mp h).1

/-- Every event preserves the single-flight invariant. -/
theorem scanInv_step (s : PlayerState) (e : PlayerEvent) (h : scanInv s) :
    scanInv (playerStep s e).1 := by
  obtain ⟨hlen, hiff⟩ := h
  cases e with
  | click env =>
    show scanInv (clickScan s env).1
    unfold clickScan
    by_cases hd : scanDisabled s
    · simp [hd]
      exact ⟨hlen, hiff⟩
    · rw [if_neg hd]
      have hns : s.isScanning = false := notDisabled_notScanning s (by simpa using hd)
      have hzero : s.inFlight.length = 0 := by
        rw [hns] at hiff
        simp at hiff
        omega
      unfold scanDispatch
      cases himg : scanImage s env with
      | none => exact ⟨by simpa using hlen, by simpa [hns] using hiff⟩
      | some img => refine ⟨by simp [hzero], by simp [hzero]⟩
  | respond req res jx jy now =>
    show scanInv (if s.inFlight.contains req = true
        then (applyScanResult s req res jx jy now, ([] : List ScanRequest)) else (s, [])).1
    by_cases hc : s.inFlight.contains req = true
    · rw [if_pos hc]
      have hmem : req ∈ s.inFlight := by
        simpa using hc
      have hone : s.inFlight.length = 1 := by
        have : 0 < s.inFlight.length := List.length_pos.mpr (List.ne_nil_of_mem hmem)
        omega
      have herase : (s.inFlight.erase req).length = 0 := by
        rw [List.length_erase_of_mem hmem, hone]
      unfold applyScanResult
      split
      · split
        · exact ⟨by simp [herase], by simp [herase]⟩
        · exact ⟨by simp [herase], by simp [herase]⟩
      · exact ⟨by simp [herase], by simp [herase]⟩
    · rw [if_neg hc]
      exact ⟨hlen, hiff⟩
  | nav i u t =>
    exact ⟨hlen, hiff⟩

/-- Event sequences preserve the single-flight invariant. -/
theorem scanInv_run (evs : List PlayerEvent) :
    ∀ (s : PlayerState), scanInv s → scanInv (runPlayer s evs).1 := by
  induction evs with
  | nil => intro s h; exact h
  | cons e es ih =>
    intro s h
    show scanInv (runPlayer (playerStep s e).1 es).1
    exact ih _ (scanInv_step s e h)

/-- Claim C2: Single-flight guard: a click while `isScanning` is a no-op at
the control surface (the trigger is disabled), every reachable state of a
freshly opened player has at most one request in flight, and two clicks in
rapid succession dispatch exactly one classification request. -/
theorem scan_concurrency_guard :
    (∀ (s : PlayerState) (env : CaptureEnv),
        s.isScanning = true → playerStep s (PlayerEvent.click env) = (s, []))
    ∧ (∀ (vid url ty : String) (evs : List PlayerEvent),
        (runPlayer (initPlayer vid url ty) evs).1.inFlight.length ≤ 1)
    ∧ (∀ (env : CaptureEnv) (vid url d : String),
        captureFrame env = some d →
        (runPlayer (initPlayer vid url ("upload")) [PlayerEvent.click env, PlayerEvent.click env]).2
          = [{ videoId := vid, imageData := d, isUrl := false }]) := by
  refine ⟨?_, ?_, ?_⟩
  · intro s env hscan
    have hd : scanDisabled s = true := by
      unfold scanDisabled
      split <;> simp [hscan]
    show clickScan s env = (s, [])
    simp [clickScan, hd]
  · intro vid url ty evs
    have h0 : scanInv (initPlayer vid url ty) := by
      constructor <;> simp [initPlayer]
    exact (scanInv_run evs (initPlayer vid url ty) h0).1
  · intro env vid url d hcap
    have hyt : (("upload" : String) == "youtube") = false := by decide
    simp [runPlayer, playerStep, clickScan, scanDisabled, scanDispatch, scanImage, hyt, hcap, initPlayer]

/-- Witness for C2: a double click on a player whose capture succeeds. -/
theorem scan_concurrency_guard_witness :
    captureFrame { hasVideoEl := true, hasCanvasEl := true, hasCtx := true,
                   videoWidth := 640, videoHeight := 360, drawThrows := false,
                   dataUrl := "data:image/jpeg;base64,zzz" } = some ("data:image/jpeg;base64,zzz")
    ∧ (runPlayer (initPlayer ("vid-1") ("blob:v1") ("upload"))
        [PlayerEvent.click { hasVideoEl := true, hasCanvasEl := true, hasCtx := true,
                             videoWidth := 640, videoHeight := 360, drawThrows := false,
                             dataUrl := "data:image/jpeg;base64,zzz" },
         PlayerEvent.click { hasVideoEl := true, hasCanvasEl := true, hasCtx := true,
                             videoWidth := 640, videoHeight := 360, drawThrows := false,
                             dataUrl := "data:image/jpeg;base64,zzz" }]).2
        = [{ videoId := "vid-1", imageData := "data:image/jpeg;base64,zzz", isUrl := false }] :=
  ⟨rfl,
    scan_concurrency_guard.2.2
      { hasVideoEl := true, hasCanvasEl := true, hasCtx := true,
        videoWidth := 640, videoHeight := 360, drawThrows := false,
        dataUrl := "data:image/jpeg;base64,zzz" }
      ("vid-1") ("blob:v1") ("data:image/jpeg;base64,zzz") rfl⟩

/-- The capture environment of the first video in the stale-response
trace. -/
def envA : CaptureEnv :=
  { hasVideoEl := true, hasCanvasEl := true, hasCtx := true,
    videoWidth := 640, videoHeight := 360, drawThrows := false,
    dataUrl := "data:image/jpeg;base64,frameA" }

/-- The request dispatched for video `video-a` in the stale-response
trace. -/
def reqA : ScanRequest :=
  { videoId := "video-a", imageData := "data:image/jpeg;base64,frameA", isUrl := false }

/-- Claim C1: The result handler performs no originating-video check: a
classification response that resolves *after* the displayed video has
changed is still applied.  In the trace below, a scan is dispatched for
`video-a`, the user switches to `video-b`, and the late response for
`video-a` resolves — yet the handler stores its product and shows the
overlays on `video-b`, contradicting the required stale-response discard. -/
theorem stale_response_applied :
    ((runPlayer (initPlayer ("video-a") ("blob:va") ("upload"))
        [PlayerEvent.click envA,
         PlayerEvent.nav ("video-b") ("blob:vb") ("upload"),
         PlayerEvent.respond reqA (Except.ok [exProduct]) zeroJitter zeroJitter 0]).1.videoDbId
      = "video-b")
    ∧ reqA.videoId = "video-a"
    ∧ (runPlayer (initPlayer ("video-a") ("blob:va") ("upload"))
        [PlayerEvent.click envA,
         PlayerEvent.nav ("video-b") ("blob:vb") ("upload"),
         PlayerEvent.respond reqA (Except.ok [exProduct]) zeroJitter zeroJitter 0]).1.showProducts
      = true
    ∧ (runPlayer (initPlayer ("video-a") ("blob:va") ("upload"))
        [PlayerEvent.click envA,
         PlayerEvent.nav ("video-b") ("blob:vb") ("upload"),
         PlayerEvent.respond reqA (Except.ok [exProduct]) zeroJitter zeroJitter 0]).1.scannedProducts.length
      = 1 :=
  ⟨rfl, rfl, rfl, rfl⟩

/-- A literal comparison only reads the first `lit.length` characters. -/
theorem charsMatch_append_left (lit : List Char) :
    ∀ (l t : List Char), lit.length ≤ l.length → charsMatch lit (l ++ t) = charsMatch lit l := by
  induction lit with
  | nil => intro l t _; rfl
  | cons a as ih =>
    intro l t hl
    cases l with
    | nil => simp at hl
    | cons b bs =>
      have hrec := ih bs t (by simpa using hl)
      simp only [List.cons_append, charsMatch]
      rw [show bs.append t = bs ++ t from rfl, hrec]

/-- A literal matches at the head of itself followed by anything. -/
theorem charsMatch_self_append (l t : List Char) : charsMatch l (l ++ t) = true := by
  induction l with
  | nil => rfl
  | cons a as ih => simp [charsMatch, ih]

/-- Equation: a successful head match returns the capture. -/
theorem findSimple_pos (lit r : List Char) (hne : r ≠ [])
    (hcond : (litAt lit r && idHead (List.drop lit.length r)) = true) :
    findSimple lit r = some (List.take 11 (List.drop lit.length r)) := by
  cases r with
  | nil => exact absurd rfl hne
  | cons c cs =>
    rw [findSimple, if_pos hcond]

/-- Equation: a failed head match scans the tail. -/
theorem findSimple_neg (lit : List Char) (c : Char) (cs : List Char)
    (hcond : (litAt lit (c :: cs) && idHead (List.drop lit.length (c :: cs))) = false) :
    findSimple lit (c :: cs) = findSimple lit cs := by
  rw [findSimple, if_neg]
  simp [hcond]

/-- No match fits in a list shorter than the literal plus the capture. -/
theorem findSimple_short (lit : List Char) :
    ∀ (r : List Char), r.length < lit.length + 11 → findSimple lit r = none := by
  intro r
  induction r with
  | nil => intro _; rfl
  | cons c cs ih =>
    intro hlen
    rw [findSimple_neg]
    · exact ih (by simp at hlen; omega)
    · have hlen2 : (List.drop lit.length (c :: cs)).length < 11 := by
        simp only [List.length_drop]
        simp at hlen ⊢
        omega
      unfold idHead
      rw [decide_eq_false (by omega)]
      simp

/-- If the literal never matches inside the concrete prefix, the scan of
`prefix ++ id` finds nothing (the eleven id characters at the very end
leave no room for a fresh match). -/
theorem findSimple_none (lit pre idc : List Char) (hid : idc.length = 11)
    (hlit : 0 < lit.length)
    (hno : ∀ i, i < pre.length → charsMatch lit (List.drop i pre) = false) :
    findSimple lit (pre ++ idc) = none := by
  induction pre with
  | nil =>
    exact findSimple_short lit idc (by omega)
  | cons c pre' ih =>
    show findSimple lit (c :: (pre' ++ idc)) = none
    rw [findSimple_neg]
    · exact ih (fun i hi => hno (i + 1) (by simp; omega))
    · by_cases hfit : lit.length ≤ (c :: pre').length
      · have hcm : charsMatch lit ((c :: pre') ++ idc) = false := by
          rw [charsMatch_append_left lit (c :: pre') idc hfit]
          exact hno 0 (by simp)
        rw [List.cons_append] at hcm
        unfold litAt
        rw [hcm]
        simp
      · have hlen2 : (List.drop lit.length (c :: (pre' ++ idc))).length < 11 := by
          simp only [List.length_drop]
          simp at hfit ⊢
          omega
        unfold idHead
        rw [decide_eq_false (by omega)]
        simp

/-- If the literal never matches strictly before its own occurrence, the
scan of `pre2 ++ lit ++ id` returns the id capture. -/
theorem findSimple_hit (lit pre2 idc : List Char) (hid : idc.length = 11)
    (hall : idc.all isIdChar = true)
    (hno : ∀ i, i < pre2.length → charsMatch lit (List.drop i (pre2 ++ lit)) = false) :
    findSimple lit (pre2 ++ lit ++ idc) = some idc := by
  induction pre2 with
  | nil =>
    have hne : lit ++ idc ≠ [] := by
      intro h
      have : (lit ++ idc).length = 0 := by rw [h]; rfl
      simp [hid] at this
    have hdrop : List.drop lit.length (lit ++ idc) = idc := List.drop_left lit idc
    rw [List.nil_append, findSimple_pos lit (lit ++ idc) hne ?hc, hdrop]
    case hc =>
      have htake : List.take 11 idc = idc := by
        rw [← hid]
        exact List.take_length idc
      rw [hdrop]
      unfold litAt idHead
      rw [charsMatch_self_append]
      rw [decide_eq_true (by simp), decide_eq_true (by simp [hid]), htake]
      simp [hall]
    rw [← hid, List.take_length]
  | cons c pre2' ih =>
    show findSimple lit (c :: (pre2' ++ lit ++ idc)) = some idc
    rw [findSimple_neg]
    · exact ih (fun i hi => hno (i + 1) (by simp; omega))
    · have hfit : lit.length ≤ ((c :: pre2') ++ lit).length := by
        simp only [List.length_append, List.length_cons]
        omega
      have hcm : charsMatch lit (((c :: pre2') ++ lit) ++ idc) = false := by
        rw [charsMatch_append_left lit ((c :: pre2') ++ lit) idc hfit]
        exact hno 0 (by simp)
      have hcm' : charsMatch lit (c :: (pre2' ++ lit ++ idc)) = false := by
        simpa [List.cons_append, List.append_assoc] using hcm
      unfold litAt
      rw [hcm']
      simp

/-- A `v=` capture needs thirteen characters; shorter lists have none. -/
theorem lastVCapture_short :
    ∀ (r : List Char), r.length < 13 → lastVCapture r = none := by
  intro r
  induction r with
  | nil => intro _; rfl
  | cons c cs ih =>
    intro hlen
    have hv : vEqHere (c :: cs) = false := by
      unfold vEqHere idHead
      have : (List.drop 2 (c :: cs)).length < 11 := by
        simp only [List.length_drop]
        simp at hlen ⊢
        omega
      rw [decide_eq_false (by omega)]
      simp
    have hrec : lastVCapture cs = none := ih (by simp at hlen; omega)
    rw [lastVCapture, hv, hrec]
    cases h : (c == '\n') <;> simp

/-- Skipping one non-newline character keeps a deeper capture (greedy
`.*`). -/
theorem lastVCapture_cons_skip (c : Char) (cs cap : List Char)
    (hc : (c == '\n') = false) (hdeep : lastVCapture cs = some cap) :
    lastVCapture (c :: cs) = some cap := by
  rw [lastVCapture, hc, hdeep]
  simp

/-- The terminal `v=` right before the eleven id characters is captured. -/
theorem lastVCapture_base (idc : List Char) (hid : idc.length = 11)
    (hall : idc.all isIdChar = true) :
    lastVCapture ('v' :: '=' :: idc) = some idc := by
  have hshort : lastVCapture ('=' :: idc) = none :=
    lastVCapture_short _ (by simp [hid])
  have htake : List.take 11 idc = idc := by
    rw [← hid]
    exact List.take_length idc
  have hv : vEqHere ('v' :: '=' :: idc) = true := by
    unfold vEqHere litAt idHead
    rw [decide_eq_true (by simp), decide_eq_true (by simp [hid])]
    simp only [List.drop, htake]
    simp [charsMatch, hall]
  rw [lastVCapture, hv, hshort]
  simp [htake]

/-- Equation: the wildcard scan skips a head position with no literal
match. -/
theorem findWildcard_neg1 (lit : List Char) (c : Char) (cs : List Char)
    (hcond : litAt lit (c :: cs) = false) :
    findWildcard lit (c :: cs) = findWildcard lit cs := by
  rw [findWildcard, if_neg]
  simp [hcond]

/-- Equation: the wildcard scan skips a head position with no later `v=`
capture. -/
theorem findWildcard_neg2 (lit : List Char) (c : Char) (cs : List Char)
    (hlv : lastVCapture (List.drop lit.length (c :: cs)) = none) :
    findWildcard lit (c :: cs) = findWildcard lit cs := by
  rw [findWildcard, hlv]
  cases h : litAt lit (c :: cs) <;> simp [h]

/-- Equation: a head literal match with a later capture returns it. -/
theorem findWildcard_pos (lit r cap : List Char) (hne : r ≠ [])
    (hlit : litAt lit r = true)
    (hlv : lastVCapture (List.drop lit.length r) = some cap) :
    findWildcard lit r = some cap := by
  cases r with
  | nil => exact absurd rfl hne
  | cons c cs => rw [findWildcard, if_pos hlit, hlv]

/-- No wildcard match fits in a list shorter than the literal plus a `v=`
capture. -/
theorem findWildcard_short (lit : List Char) :
    ∀ (r : List Char), r.length < lit.length + 13 → findWildcard lit r = none := by
  intro r
  induction r with
  | nil => intro _; rfl
  | cons c cs ih =>
    intro hlen
    rw [findWildcard_neg2]
    · exact ih (by simp at hlen; omega)
    · apply lastVCapture_short
      simp only [List.length_drop]
      simp at hlen ⊢
      omega

/-- If the wildcard literal never matches inside the concrete prefix, the
scan of `prefix ++ id` finds nothing. -/
theorem findWildcard_none (lit pre idc : List Char) (hid : idc.length = 11)
    (hno : ∀ i, i < pre.length → charsMatch lit (List.drop i pre) = false) :
    findWildcard lit (pre ++ idc) = none := by
  induction pre with
  | nil =>
    exact findWildcard_short lit idc (by omega)
  | cons c pre' ih =>
    show findWildcard lit (c :: (pre' ++ idc)) = none
    by_cases hfit : lit.length ≤ (c :: pre').length
    · rw [findWildcard_neg1]
      · exact ih (fun i hi => hno (i + 1) (by simp; omega))
      · have hcm : charsMatch lit ((c :: pre') ++ idc) = false := by
          rw [charsMatch_append_left lit (c :: pre') idc hfit]
          exact hno 0 (by simp)
        rw [List.cons_append] at hcm
        unfold litAt
        rw [hcm]
        simp
    · rw [findWildcard_neg2]
      · exact ih (fun i hi => hno (i + 1) (by simp; omega))
      · apply lastVCapture_short
        simp only [List.length_drop]
        simp at hfit ⊢
        omega

/-- If the wildcard literal never matches strictly before its own
occurrence, the scan of `pre2 ++ lit ++ rest` yields the greedy capture of
`rest`. -/
theorem findWildcard_hit (lit pre2 rest cap : List Char)
    (hlv : lastVCapture rest = some cap)
    (hno : ∀ i, i < pre2.length → charsMatch lit (List.drop i (pre2 ++ lit)) = false) :
    findWildcard lit (pre2 ++ lit ++ rest) = some cap := by
  induction pre2 with
  | nil =>
    have hne : lit ++ rest ≠ [] := by
      intro h
      have h2 : rest = [] := by
        cases hr : rest with
        | nil => rfl
        | cons a as =>
          rw [hr] at h
          exact absurd (List.append_eq_nil.mp h).2 (by simp)
      rw [h2] at hlv
      exact Option.noConfusion hlv
    have hdrop : List.drop lit.length (lit ++ rest) = rest := List.drop_left lit rest
    rw [List.nil_append]
    apply findWildcard_pos lit (lit ++ rest) cap hne
    · unfold litAt
      rw [charsMatch_self_append, decide_eq_true (by simp)]
      rfl
    · rw [hdrop, hlv]
  | cons c pre2' ih =>
    show findWildcard lit (c :: (pre2' ++ lit ++ rest)) = some cap
    rw [findWildcard_neg1]
    · exact ih (fun i hi => hno (i + 1) (by simp; omega))
    · have hfit : lit.length ≤ ((c :: pre2') ++ lit).length := by
        simp only [List.length_append, List.length_cons]
        omega
      have hcm : charsMatch lit (((c :: pre2') ++ lit) ++ rest) = false := by
        rw [charsMatch_append_left lit ((c :: pre2') ++ lit) rest hfit]
        exact hno 0 (by simp)
      have hcm' : charsMatch lit (c :: (pre2' ++ lit ++ rest)) = false := by
        simpa [List.cons_append, List.append_assoc] using hcm
      unfold litAt
      rw [hcm']
      simp

/-- Form 1: the standard watch URL. -/
theorem extract_watch_data (idc : List Char) (h11 : idc.length = 11)
    (hall : idc.all isIdChar = true) :
    extractYoutubeIdL ("https://www.youtube.com/watch?v=".data ++ idc) = some idc := by
  have hre : "https://www.youtube.com/watch?v=".data = "https://www.".data ++ pat1 := by decide
  have e1 : findSimple pat1 ("https://www.".data ++ pat1 ++ idc) = some idc :=
    findSimple_hit pat1 ("https://www.".data) idc h11 hall (by decide)
  rw [hre]
  unfold extractYoutubeIdL
  rw [e1]

/-- Form 2: a watch URL with extra query parameters before `v=`. -/
theorem extract_watch_extra_data (idc : List Char) (h11 : idc.length = 11)
    (hall : idc.all isIdChar = true) :
    extractYoutubeIdL ("https://www.youtube.com/watch?t=42&v=".data ++ idc) = some idc := by
  have hb := lastVCapture_base idc h11 hall
  have s1 := lastVCapture_cons_skip '&' _ _ (by decide) hb
  have s2 := lastVCapture_cons_skip '2' _ _ (by decide) s1
  have s3 := lastVCapture_cons_skip '4' _ _ (by decide) s2
  have s4 := lastVCapture_cons_skip '=' _ _ (by decide) s3
  have s5 := lastVCapture_cons_skip 't' _ _ (by decide) s4
  have hmid : lastVCapture ("t=42&v=".data ++ idc) = some idc := s5
  have e1 : findSimple pat1 ("https://www.youtube.com/watch?t=42&v=".data ++ idc) = none :=
    findSimple_none pat1 _ idc h11 (by decide) (by decide)
  have e2 : findWildcard pat2 ("https://www.".data ++ pat2 ++ ("t=42&v=".data ++ idc)) = some idc :=
    findWildcard_hit pat2 ("https://www.".data) _ idc hmid (by decide)
  have hre : ("https://www.youtube.com/watch?t=42&v=".data ++ idc)
      = "https://www.".data ++ pat2 ++ ("t=42&v=".data ++ idc) := by
    have : "https://www.youtube.com/watch?t=42&v=".data
        = ("https://www.".data ++ pat2) ++ "t=42&v=".data := by decide
    rw [this, List.append_assoc]
  unfold extractYoutubeIdL
  rw [e1, hre, e2]

/-- Form 3: the short link. -/
theorem extract_short_data (idc : List Char) (h11 : idc.length = 11)
    (hall : idc.all isIdChar = true) :
    extractYoutubeIdL ("https://youtu.be/".data ++ idc) = some idc := by
  have e1 : findSimple pat1 ("https://youtu.be/".data ++ idc) = none :=
    findSimple_none pat1 _ idc h11 (by decide) (by decide)
  have e2 : findWildcard pat2 ("https://youtu.be/".data ++ idc) = none :=
    findWildcard_none pat2 _ idc h11 (by decide)
  have e3 : findSimple pat3 ("https://".data ++ pat3 ++ idc) = some idc :=
    findSimple_hit pat3 ("https://".data) idc h11 hall (by decide)
  have hre : "https://youtu.be/".data = "https://".data ++ pat3 := by decide
  unfold extractYoutubeIdL
  rw [e1, e2, hre, e3]

/-- Form 4: the embed URL. -/
theorem extract_embed_data (idc : List Char) (h11 : idc.length = 11)
    (hall : idc.all isIdChar = true) :
    extractYoutubeIdL ("https://www.youtube.com/embed/".data ++ idc) = some idc := by
  have e1 : findSimple pat1 ("https://www.youtube.com/embed/".data ++ idc) = none :=
    findSimple_none pat1 _ idc h11 (by decide) (by decide)
  have e2 : findWildcard pat2 ("https://www.youtube.com/embed/".data ++ idc) = none :=
    findWildcard_none pat2 _ idc h11 (by decide)
  have e3 : findSimple pat3 ("https://www.youtube.com/embed/".data ++ idc) = none :=
    findSimple_none pat3 _ idc h11 (by decide) (by decide)
  have e4 : findSimple pat4 ("https://www.".data ++ pat4 ++ idc) = some idc :=
    findSimple_hit pat4 ("https://www.".data) idc h11 hall (by decide)
  have hre : "https://www.youtube.com/embed/".data = "https://www.".data ++ pat4 := by decide
  unfold extractYoutubeIdL
  rw [e1, e2, e3, hre, e4]

/-- Form 5: the legacy `/v/` URL. -/
theorem extract_legacy_data (idc : List Char) (h11 : idc.length = 11)
    (hall : idc.all isIdChar = true) :
    extractYoutubeIdL ("https://www.youtube.com/v/".data ++ idc) = some idc := by
  have e1 : findSimple pat1 ("https://www.youtube.com/v/".data ++ idc) = none :=
    findSimple_none pat1 _ idc h11 (by decide) (by decide)
  have e2 : findWildcard pat2 ("https://www.youtube.com/v/".data ++ idc) = none :=
    findWildcard_none pat2 _ idc h11 (by decide)
  have e3 : findSimple pat3 ("https://www.youtube.com/v/".data ++ idc) = none :=
    findSimple_none pat3 _ idc h11 (by decide) (by decide)
  have e4 : findSimple pat4 ("https://www.youtube.com/v/".data ++ idc) = none :=
    findSimple_none pat4 _ idc h11 (by decide) (by decide)
  have e5 : findSimple pat5 ("https://www.".data ++ pat5 ++ idc) = some idc :=
    findSimple_hit pat5 ("https://www.".data) idc h11 hall (by decide)
  have hre : "https://www.youtube.com/v/".data = "https://www.".data ++ pat5 := by decide
  unfold extractYoutubeIdL
  rw [e1, e2, e3, e4, hre, e5]

/-- Form 6: the shorts URL. -/
theorem extract_shorts_data (idc : List Char) (h11 : idc.length = 11)
    (hall : idc.all isIdChar = true) :
    extractYoutubeIdL ("https://www.youtube.com/shorts/".data ++ idc) = some idc := by
  have e1 : findSimple pat1 ("https://www.youtube.com/shorts/".data ++ idc) = none :=
    findSimple_none pat1 _ idc h11 (by decide) (by decide)
  have e2 : findWildcard pat2 ("https://www.youtube.com/shorts/".data ++ idc) = none :=
    findWildcard_none pat2 _ idc h11 (by decide)
  have e3 : findSimple pat3 ("https://www.youtube.com/shorts/".data ++ idc) = none :=
    findSimple_none pat3 _ idc h11 (by decide) (by decide)
  have e4 : findSimple pat4 ("https://www.youtube.com/shorts/".data ++ idc) = none :=
    findSimple_none pat4 _ idc h11 (by decide) (by decide)
  have e5 : findSimple pat5 ("https://www.youtube.com/shorts/".data ++ idc) = none :=
    findSimple_none pat5 _ idc h11 (by decide) (by decide)
  have e6 : findSimple pat6 ("https://www.".data ++ pat6 ++ idc) = some idc :=
    findSimple_hit pat6 ("https://www.".data) idc h11 hall (by decide)
  have hre : "https://www.youtube.com/shorts/".data = "https://www.".data ++ pat6 := by decide
  unfold extractYoutubeIdL
  rw [e1, e2, e3, e4, e5, hre, e6]

/-- Form 7: the live URL. -/
theorem extract_live_data (idc : List Char) (h11 : idc.length = 11)
    (hall : idc.all isIdChar = true) :
    extractYoutubeIdL ("https://www.youtube.com/live/".data ++ idc) = some idc := by
  have e1 : findSimple pat1 ("https://www.youtube.com/live/".data ++ idc) = none :=
    findSimple_none pat1 _ idc h11 (by decide) (by decide)
  have e2 : findWildcard pat2 ("https://www.youtube.com/live/".data ++ idc) = none :=
    findWildcard_none pat2 _ idc h11 (by decide)
  have e3 : findSimple pat3 ("https://www.youtube.com/live/".data ++ idc) = none :=
    findSimple_none pat3 _ idc h11 (by decide) (by decide)
  have e4 : findSimple pat4 ("https://www.youtube.com/live/".data ++ idc) = none :=
    findSimple_none pat4 _ idc h11 (by decide) (by decide)
  have e5 : findSimple pat5 ("https://www.youtube.com/live/".data ++ idc) = none :=
    findSimple_none pat5 _ idc h11 (by decide) (by decide)
  have e6 : findSimple pat6 ("https://www.youtube.com/live/".data ++ idc) = none :=
    findSimple_none pat6 _ idc h11 (by decide) (by decide)
  have e7 : findSimple pat7 ("https://www.".data ++ pat7 ++ idc) = some idc :=
    findSimple_hit pat7 ("https://www.".data) idc h11 hall (by decide)
  have hre : "https://www.youtube.com/live/".data = "https://www.".data ++ pat7 := by decide
  unfold extractYoutubeIdL
  rw [e1, e2, e3, e4, e5, e6, hre, e7]

/-- When every pattern fails, the extractor reports "not found". -/
theorem extractYoutubeIdL_none (l : List Char)
    (h1 : findSimple pat1 l = none) (h2 : findWildcard pat2 l = none)
    (h3 : findSimple pat3 l = none) (h4 : findSimple pat4 l = none)
    (h5 : findSimple pat5 l = none) (h6 : findSimple pat6 l = none)
    (h7 : findSimple pat7 l = none) : extractYoutubeIdL l = none := by
  unfold extractYoutubeIdL
  rw [h1, h2, h3, h4, h5, h6, h7]

/-- Claim C3: For each of the seven recognized watch-URL surface forms
(standard watch, watch with extra query parameters, short link, embed,
legacy `/v/`, shorts, live) embedding the same eleven-character identifier,
extraction returns exactly that identifier; and for any input on which all
seven patterns fail, extraction returns `none` rather than any
identifier. -/
theorem youtube_id_extraction
    (c0 c1 c2 c3 c4 c5 c6 c7 c8 c9 c10 : Char)
    (h0 : isIdChar c0 = true) (h1 : isIdChar c1 = true) (h2 : isIdChar c2 = true)
    (h3 : isIdChar c3 = true) (h4 : isIdChar c4 = true) (h5 : isIdChar c5 = true)
    (h6 : isIdChar c6 = true) (h7 : isIdChar c7 = true) (h8 : isIdChar c8 = true)
    (h9 : isIdChar c9 = true) (h10 : isIdChar c10 = true) :
    (extractYoutubeId (String.mk ("https://www.youtube.com/watch?v=".data
        ++ [c0, c1, c2, c3, c4, c5, c6, c7, c8, c9, c10]))
      = some (String.mk [c0, c1, c2, c3, c4, c5, c6, c7, c8, c9, c10]))
    ∧ (extractYoutubeId (String.mk ("https://www.youtube.com/watch?t=42&v=".data
        ++ [c0, c1, c2, c3, c4, c5, c6, c7, c8, c9, c10]))
      = some (String.mk [c0, c1, c2, c3, c4, c5, c6, c7, c8, c9, c10]))
    ∧ (extractYoutubeId (String.mk ("https://youtu.be/".data
        ++ [c0, c1, c2, c3, c4, c5, c6, c7, c8, c9, c10]))
      = some (String.mk [c0, c1, c2, c3, c4, c5, c6, c7, c8, c9, c10]))
    ∧ (extractYoutubeId (String.mk ("https://www.youtube.com/embed/".data
        ++ [c0, c1, c2, c3, c4, c5, c6, c7, c8, c9, c10]))
      = some (String.mk [c0, c1, c2, c3, c4, c5, c6, c7, c8, c9, c10]))
    ∧ (extractYoutubeId (String.mk ("https://www.youtube.com/v/".data
        ++ [c0, c1, c2, c3, c4, c5, c6, c7, c8, c9, c10]))
      = some (String.mk [c0, c1, c2, c3, c4, c5, c6, c7, c8, c9, c10]))
    ∧ (extractYoutubeId (String.mk ("https://www.youtube.com/shorts/".data
        ++ [c0, c1, c2, c3, c4, c5, c6, c7, c8, c9, c10]))
      = some (String.mk [c0, c1, c2, c3, c4, c5, c6, c7, c8, c9, c10]))
    ∧ (extractYoutubeId (String.mk ("https://www.youtube.com/live/".data
        ++ [c0, c1, c2, c3, c4, c5, c6, c7, c8, c9, c10]))
      = some (String.mk [c0, c1, c2, c3, c4, c5, c6, c7, c8, c9, c10]))
    ∧ (∀ url : String,
        findSimple pat1 url.data = none → findWildcard pat2 url.data = none →
        findSimple pat3 url.data = none → findSimple pat4 url.data = none →
        findSimple pat5 url.data = none → findSimple pat6 url.data = none →
        findSimple pat7 url.data = none →
        extractYoutubeId url = none) := by
  have h11 : ([c0, c1, c2, c3, c4, c5, c6, c7, c8, c9, c10] : List Char).length = 11 := rfl
  have hall : ([c0, c1, c2, c3, c4, c5, c6, c7, c8, c9, c10] : List Char).all isIdChar = true := by
    simp [List.all_cons, h0, h1, h2, h3, h4, h5, h6, h7, h8, h9, h10]
  refine ⟨?_, ?_, ?_, ?_, ?_, ?_, ?_, ?_⟩
  · show (extractYoutubeIdL ("https://www.youtube.com/watch?v=".data
        ++ [c0, c1, c2, c3, c4, c5, c6, c7, c8, c9, c10])).map String.mk = _
    rw [extract_watch_data _ h11 hall]
    rfl
  · show (extractYoutubeIdL ("https://www.youtube.com/watch?t=42&v=".data
        ++ [c0, c1, c2, c3, c4, c5, c6, c7, c8, c9, c10])).map String.mk = _
    rw [extract_watch_extra_data _ h11 hall]
    rfl
  · show (extractYoutubeIdL ("https://youtu.be/".data
        ++ [c0, c1, c2, c3, c4, c5, c6, c7, c8, c9, c10])).map String.mk = _
    rw [extract_short_data _ h11 hall]
    rfl
  · show (extractYoutubeIdL ("https://www.youtube.com/embed/".data
        ++ [c0, c1, c2, c3, c4, c5, c6, c7, c8, c9, c10])).map String.mk = _
    rw [extract_embed_data _ h11 hall]
    rfl
  · show (extractYoutubeIdL ("https://www.youtube.com/v/".data
        ++ [c0, c1, c2, c3, c4, c5, c6, c7, c8, c9, c10])).map String.mk = _
    rw [extract_legacy_data _ h11 hall]
    rfl
  · show (extractYoutubeIdL ("https://www.youtube.com/shorts/".data
        ++ [c0, c1, c2, c3, c4, c5, c6, c7, c8, c9, c10])).map String.mk = _
    rw [extract_shorts_data _ h11 hall]
    rfl
  · show (extractYoutubeIdL ("https://www.youtube.com/live/".data
        ++ [c0, c1, c2, c3, c4, c5, c6, c7, c8, c9, c10])).map String.mk = _
    rw [extract_live_data _ h11 hall]
    rfl
  · intro url g1 g2 g3 g4 g5 g6 g7
    show (extractYoutubeIdL url.data).map String.mk = none
    rw [extractYoutubeIdL_none url.data g1 g2 g3 g4 g5 g6 g7]
    rfl

/-- Witness for C3 on the identifier `dQw4w9WgXcQ` in the short-link and
standard forms, plus a non-matching input. -/
theorem youtube_id_extraction_witness :
    isIdChar 'd' = true
    ∧ extractYoutubeId ("https://youtu.be/dQw4w9WgXcQ") = some ("dQw4w9WgXcQ")
    ∧ extractYoutubeId ("https://www.youtube.com/watch?v=dQw4w9WgXcQ") = some ("dQw4w9WgXcQ")
    ∧ extractYoutubeId ("https://example.com/video.mp4") = none := by
  have h := youtube_id_extraction 'd' 'Q' 'w' '4' 'w' '9' 'W' 'g' 'X' 'c' 'Q'
    (by decide) (by decide) (by decide) (by decide) (by decide) (by decide)
    (by decide) (by decide) (by decide) (by decide) (by decide)
  refine ⟨by decide, ?_, ?_, ?_⟩
  · exact h.2.2.1
  · exact h.1
  · exact h.2.2.2.2.2.2.2 ("https://example.com/video.mp4")
      (by decide) (by decide) (by decide) (by decide) (by decide) (by decide) (by decide)
